import Mathlib

/-!
Shallow embedding of the Publish Orchestration Subsystem of the
tiktok-shop-affiliate repository, and proofs of the specified properties.

The embedding follows the Python source:
* `tiktok_poster.py` — `TikTokTokenManager` (`load_tokens`, `save_tokens`,
  `get_access_token`, `refresh_access_token`), `TikTokPoster.wait_for_publish`,
  and `post_product`;
* `db_manager.py` — `add_product`, `update_product`, `get_products_for_posting`,
  `add_post_log`;
* `product_manager.py` — `get_next_product_for_posting`;
* `ai_writer.py` — `generate_post_text`;
* `main.py` — `run_single_post`.

External effects (HTTP requests, the filesystem, the wall clock, the
generative-text service) are modelled as explicit oracle parameters; the
control flow around them is translated statement by statement from the
source.  Machine time is discretised in units of the polling interval: a
status poll is instantaneous and `time.sleep(interval)` advances the clock
by `interval`.
-/

/-- Python truthiness of an optional string: `None` and `""` are falsy. -/
def truthy : Option String → Bool
  | none => false
  | some s => !s.isEmpty

/-! ## Token Lifecycle Manager (`tiktok_poster.py`, `TikTokTokenManager`) -/

/-- Credential Record as stored in the tokens file.  Absent JSON keys are
`none` (`dict.get` returns `None` for a missing key). -/
structure Tokens where
  access_token : Option String
  refresh_token : Option String
  expires_at : Option Nat
  open_id : Option String
deriving DecidableEq, Repr

/-- Mutable state of a `TikTokTokenManager` instance: the tokens file on
disk (`none` when absent, unreadable or corrupt) and the in-memory cache
`self._tokens`. -/
structure TMState where
  fileTokens : Option Tokens
  memTokens : Option Tokens
deriving DecidableEq, Repr

/-- Reply of the token-refresh HTTP exchange when the response contains an
`access_token`; optional keys mirror `result.get(...)` in the source. -/
structure ExchangeReply where
  access_token : String
  refresh_token : Option String
  expires_in : Option Nat
  open_id : Option String
deriving DecidableEq, Repr

/-- Environment of a token-manager call: the `TIKTOK_ACCESS_TOKEN`
override, the current time, the outcome of the refresh HTTP exchange
(`none` when the request raises or the response has no `access_token`),
and whether writing the tokens file succeeds. -/
structure TMEnv where
  envToken : Option String
  now : Nat
  exchange : Option ExchangeReply
  saveOk : Bool
deriving DecidableEq, Repr

/-- Model of `TikTokTokenManager.load_tokens`: read the tokens file; on success the
parsed record is also cached in `self._tokens`. -/
def load_tokens (s : TMState) : Option Tokens × TMState :=
  match s.fileTokens with
  | some t => (some t, { s with memTokens := some t })
  | none => (none, s)

/-- Model of `TikTokTokenManager.save_tokens`: write the record to the tokens file
and cache it; on an I/O error return `False` leaving both unchanged. -/
def save_tokens (t : Tokens) (saveOk : Bool) (s : TMState) : Bool × TMState :=
  if saveOk then (true, { fileTokens := some t, memTokens := some t })
  else (false, s)

/-- Model of `TikTokTokenManager.refresh_access_token`.  The third component counts
refresh HTTP exchange requests issued to the token endpoint.  Note that the
source ignores the return value of `save_tokens` and returns `True`
whenever the exchange yielded an `access_token`. -/
def refresh_access_token (env : TMEnv) (s : TMState) : Bool × TMState × Nat :=
  let loaded := match s.memTokens with
    | some t => (some t, s)
    | none => load_tokens s
  match loaded.1 with
  | none => (false, loaded.2, 0)
  | some tokens =>
    if truthy tokens.refresh_token = false then (false, loaded.2, 0)
    else
      match env.exchange with
      | none => (false, loaded.2, 1)
      | some reply =>
        let newTokens : Tokens :=
          { access_token := some reply.access_token
            refresh_token :=
              match reply.refresh_token with
              | some r => some r
              | none => tokens.refresh_token
            expires_at := some (env.now + reply.expires_in.getD 86400)
            open_id :=
              match reply.open_id with
              | some o => some o
              | none => tokens.open_id }
        (true, (save_tokens newTokens env.saveOk loaded.2).2, 1)

/-- Model of `TikTokTokenManager.get_access_token`.  The third component counts
refresh HTTP exchange requests issued during the call. -/
def get_access_token (env : TMEnv) (s : TMState) : Option String × TMState × Nat :=
  if truthy env.envToken then (env.envToken, s, 0)
  else
    let loaded := load_tokens s
    match loaded.1 with
    | none => (none, loaded.2, 0)
    | some tokens =>
      match tokens.expires_at with
      | some e =>
        if env.now > e then
          let refreshed := refresh_access_token env loaded.2
          if refreshed.1 then
            (refreshed.2.1.memTokens.bind (·.access_token), refreshed.2.1, refreshed.2.2)
          else (none, refreshed.2.1, refreshed.2.2)
        else (tokens.access_token, loaded.2, 0)
      | none => (tokens.access_token, loaded.2, 0)

/-! ## Publish State Machine (`tiktok_poster.py`, `TikTokPoster`) -/

/-- Publish status constant `STATUS_PUBLISH_COMPLETE`. -/
def STATUS_PUBLISH_COMPLETE : String := "PUBLISH_COMPLETE"

/-- Publish status constant `STATUS_FAILED`. -/
def STATUS_FAILED : String := "FAILED"

/-- Publish status constant `STATUS_SEND_TO_USER_INBOX`. -/
def STATUS_SEND_TO_USER_INBOX : String := "SEND_TO_USER_INBOX"

/-- Synthetic message returned by `wait_for_publish` on timeout. -/
def TIMEOUT_MESSAGE : String := "処理がタイムアウトしました"

/-- Result of one `check_publish_status` call: the `status` field of the
response (`none` when the key is absent) and the `fail_reason` field
(defaulted to `""` by the source). -/
structure StatusResult where
  status : Option String
  fail_reason : String
deriving DecidableEq, Repr

/-- Result dictionary of `wait_for_publish`. -/
structure WaitResult where
  success : Bool
  status : String
  fail_reason : String
deriving DecidableEq, Repr

/-- Result returned by the final line of `wait_for_publish` when the
deadline elapses. -/
def timeoutResult : WaitResult :=
  { success := false, status := "TIMEOUT", fail_reason := TIMEOUT_MESSAGE }

/-- Loop body of `TikTokPoster.wait_for_publish`, fuel-indexed.  `poll i`
is the outcome of the `i`-th `check_publish_status` call (`none` when
the check fails).  Poll `i` happens at elapsed time `i * interval`: the
source polls at the top of each iteration and sleeps `interval` before the
next one.  Returns the result dictionary together with the elapsed time at
the return statement; `none` only on fuel exhaustion. -/
def waitForPublishAux (poll : Nat → Option StatusResult) (timeout interval : Nat) :
    Nat → Nat → Option (WaitResult × Nat)
  | _, 0 => none
  | i, fuel + 1 =>
    if i * interval < timeout then
      match poll i with
      | none => waitForPublishAux poll timeout interval (i + 1) fuel
      | some st =>
        if st.status = some STATUS_PUBLISH_COMPLETE then
          some ({ success := true, status := STATUS_PUBLISH_COMPLETE, fail_reason := "" },
            i * interval)
        else if st.status = some STATUS_FAILED then
          some ({ success := false, status := STATUS_FAILED, fail_reason := st.fail_reason },
            i * interval)
        else
          waitForPublishAux poll timeout interval (i + 1) fuel
    else
      some (timeoutResult, i * interval)

/-- Model of `TikTokPoster.wait_for_publish` (instrumented with the elapsed time at
return).  `timeout + 1` units of fuel are enough whenever
`0 < interval`, which the defaults (`timeout = 120`, `interval = 5`)
satisfy; the fallback value is never reached then. -/
def wait_for_publish (poll : Nat → Option StatusResult) (timeout interval : Nat) :
    WaitResult × Nat :=
  (waitForPublishAux poll timeout interval 0 (timeout + 1)).getD (timeoutResult, 0)

/-- Result dictionary of `post_product`. -/
structure PostOutcome where
  publish_id : String
  success : Bool
  status : String
  fail_reason : String
deriving DecidableEq, Repr

/-- Model of `post_product` (`tiktok_poster.py`): initialise the photo post and wait
for completion.  `initResult` is the outcome of `init_photo_post` (`none`
on failure, otherwise the assigned `publish_id`); `poll` feeds the status
checks of `wait_for_publish`, which is called with its default
`timeout = 120`, `interval = 5`. -/
def post_product (initResult : Option String) (poll : Nat → Option StatusResult) :
    Option PostOutcome :=
  match initResult with
  | none => none
  | some publish_id =>
    let w := wait_for_publish poll 120 5
    some { publish_id := publish_id, success := w.1.success, status := w.1.status,
           fail_reason := w.1.fail_reason }

/-! ## Product store (`db_manager.py`) -/

/-- Row of the `products` table.  `last_posted_at` timestamps are modelled
as natural numbers (`NULL` is `none`); `created_at` plays no role in any
operation modelled here and is omitted. -/
structure Product where
  item_id : String
  item_name : String
  price : Option Nat
  image_url : Option String
  category : Option String
  description : Option String
  affiliate_url : Option String
  last_posted_at : Option Nat
  post_count : Nat
  is_active : Bool
  updated_at : Nat
deriving DecidableEq, Repr

/-- Input dictionary of `add_product` (the seven columns it binds). -/
structure NewProductData where
  item_id : String
  item_name : String
  price : Option Nat
  image_url : Option String
  category : Option String
  description : Option String
  affiliate_url : Option String
deriving DecidableEq, Repr

/-- Model of `add_product`: `INSERT OR REPLACE INTO products (item_id, item_name,
price, image_url, category, description, affiliate_url, updated_at)`.
`REPLACE` deletes any existing row with the same `item_id` and inserts a
fresh row; columns not in the insert list take their schema defaults:
`post_count` `0`, `last_posted_at` `NULL`, `is_active` `1`. -/
def add_product (now : Nat) (d : NewProductData) (db : List Product) : List Product :=
  db.filter (fun p => p.item_id ≠ d.item_id) ++
    [{ item_id := d.item_id, item_name := d.item_name, price := d.price,
       image_url := d.image_url, category := d.category, description := d.description,
       affiliate_url := d.affiliate_url, last_posted_at := none, post_count := 0,
       is_active := true, updated_at := now }]

/-- Input dictionary of `update_product`: each field of the source's
`allowed_fields` list, `none` when the key is absent from the update. -/
structure UpdateData where
  item_name : Option String := none
  price : Option (Option Nat) := none
  image_url : Option (Option String) := none
  category : Option (Option String) := none
  description : Option (Option String) := none
  affiliate_url : Option (Option String) := none
  last_posted_at : Option (Option Nat) := none
  post_count : Option Nat := none
  is_active : Option Bool := none
deriving DecidableEq, Repr

/-- Whether an `update_product` call carries at least one allowed field
(the source returns `False` immediately otherwise). -/
def hasUpdates (d : UpdateData) : Bool :=
  d.item_name.isSome || d.price.isSome || d.image_url.isSome || d.category.isSome ||
    d.description.isSome || d.affiliate_url.isSome || d.last_posted_at.isSome ||
    d.post_count.isSome || d.is_active.isSome

/-- Application of one `update_product` `SET` clause to a matching row;
`updated_at` is always set to the current time. -/
def applyUpdate (now : Nat) (d : UpdateData) (p : Product) : Product :=
  { p with
    item_name := d.item_name.getD p.item_name
    price := d.price.getD p.price
    image_url := d.image_url.getD p.image_url
    category := d.category.getD p.category
    description := d.description.getD p.description
    affiliate_url := d.affiliate_url.getD p.affiliate_url
    last_posted_at := d.last_posted_at.getD p.last_posted_at
    post_count := d.post_count.getD p.post_count
    is_active := d.is_active.getD p.is_active
    updated_at := now }

/-- Model of `update_product`: update the allowed fields of every row whose
`item_id` matches; the boolean is `cursor.rowcount > 0`. -/
def update_product (now : Nat) (item_id : String) (d : UpdateData) (db : List Product) :
    Bool × List Product :=
  if hasUpdates d then
    (db.any (fun p => p.item_id == item_id),
      db.map (fun p => if p.item_id == item_id then applyUpdate now d p else p))
  else (false, db)

/-- Lexicographic comparison of rotation sort keys, first component most
significant. -/
def lexLe (x y : Nat × Nat × Nat) : Prop :=
  x.1 < y.1 ∨ (x.1 = y.1 ∧ (x.2.1 < y.2.1 ∨ (x.2.1 = y.2.1 ∧ x.2.2 ≤ y.2.2)))

instance : DecidableRel lexLe := fun x y => by
  unfold lexLe; exact inferInstanceAs (Decidable _)

/-- Sort key of the `ORDER BY` clause of `get_products_for_posting`:
`CASE WHEN last_posted_at IS NULL THEN 0 ELSE 1 END`, then `post_count`,
then `last_posted_at` (all ascending; within the `NULL` group the third
component is constant, so its placeholder value is irrelevant). -/
def rotKey (p : Product) : Nat × Nat × Nat :=
  (if p.last_posted_at = none then 0 else 1, p.post_count, p.last_posted_at.getD 0)

/-- Rotation ordering relation induced by the `ORDER BY` clause. -/
def rotLE (a b : Product) : Prop := lexLe (rotKey a) (rotKey b)

instance : DecidableRel rotLE := fun a b => by
  unfold rotLE; exact inferInstanceAs (Decidable _)

/-- Model of `get_products_for_posting`: `SELECT * FROM products WHERE is_active = 1
ORDER BY` the rotation key. -/
def get_products_for_posting (db : List Product) : List Product :=
  List.insertionSort rotLE (db.filter (fun p => p.is_active))

/-- Model of `get_next_product_for_posting` (`product_manager.py`):
`products[0] if products else None`. -/
def get_next_product_for_posting (db : List Product) : Option Product :=
  (get_products_for_posting db).head?

/-- Model of `get_product`: `SELECT * FROM products WHERE item_id = ?`, first row. -/
def get_product (item_id : String) (db : List Product) : Option Product :=
  db.find? (fun p => p.item_id == item_id)

/-- Row of the `posts` log table. -/
structure LogEntry where
  item_id : String
  post_text : Option String
  hosted_image_url : Option String
  tiktok_publish_id : Option String
  status : String
deriving DecidableEq, Repr

/-- Input dictionary of `add_post_log`; `status` defaults to `"pending"`
when absent. -/
structure LogInput where
  item_id : String
  post_text : Option String := none
  hosted_image_url : Option String := none
  tiktok_publish_id : Option String := none
  status : Option String := none
deriving DecidableEq, Repr

/-- Model of `add_post_log`: `INSERT INTO posts (...)` appending one row. -/
def add_post_log (d : LogInput) (posts : List LogEntry) : List LogEntry :=
  posts ++ [{ item_id := d.item_id, post_text := d.post_text,
              hosted_image_url := d.hosted_image_url,
              tiktok_publish_id := d.tiktok_publish_id,
              status := d.status.getD "pending" }]

/-! ## Content Generator (`ai_writer.py`) -/

/-- Result dictionary of `parse_response`: extracted body, hashtags and the
assembled full text. -/
structure PostText where
  body : String
  hashtags : List String
  full_text : String
deriving DecidableEq, Repr

/-- Attempt loop of `generate_post_text`, fuel-indexed by the number of
remaining attempts.  `api attempt` is the text of the service reply on that
attempt (`none` when the call raises an `APIError`); `parse` stands for
`parse_response` and `validate` for `fun t => (validate_post_text t).valid`
(their regex internals are irrelevant to the loop, which only looks at the
extracted body and the validation verdict).  Returns the result together
with the number of service calls made.  Per iteration the source makes
exactly one service call, then: an exception continues the loop, an empty
parsed body continues without validating, a valid `full_text` returns the
parse result, and a validation failure continues. -/
def generateAttempts (api : Nat → Option String) (parse : String → PostText)
    (validate : String → Bool) : Nat → Nat → Option PostText × Nat
  | _, 0 => (none, 0)
  | attempt, n + 1 =>
    match api attempt with
    | none =>
      let rest := generateAttempts api parse validate (attempt + 1) n
      (rest.1, rest.2 + 1)
    | some text =>
      let result := parse text
      if result.body = "" then
        let rest := generateAttempts api parse validate (attempt + 1) n
        (rest.1, rest.2 + 1)
      else if validate result.full_text then (some result, 1)
      else
        let rest := generateAttempts api parse validate (attempt + 1) n
        (rest.1, rest.2 + 1)

/-- Model of `generate_post_text`: `None` immediately when no API key is
configured, otherwise `max_retries + 1` attempts of the loop above. -/
def generate_post_text (apiKeySet : Bool) (api : Nat → Option String)
    (parse : String → PostText) (validate : String → Bool) (max_retries : Nat) :
    Option PostText × Nat :=
  if apiKeySet then generateAttempts api parse validate 0 (max_retries + 1)
  else (none, 0)

/-! ## Orchestrator (`main.py`, `run_single_post`) -/

/-- Persistent store visible to one orchestration run. -/
structure DB where
  products : List Product
  posts : List LogEntry
deriving DecidableEq, Repr

/-- Environment of one `run_single_post` call: the image-hosting outcome
(`get_hosted_url`), the content-generation outcome (`generate_post_text`),
the publish-init outcome (`init_photo_post`, `none` on failure, otherwise
the `publish_id`), the status-poll source for `wait_for_publish`, and the
current time used for `datetime.now()`. -/
structure RunEnv where
  hostedUrl : Option String
  genResult : Option PostText
  initResult : Option String
  poll : Nat → Option StatusResult
  now : Nat

/-- Model of `run_single_post` (`main.py`), returning the reported boolean and the
resulting store.  Selection uses `get_product` when a `product_id` is
given and the rotation selector otherwise; each failure exit returns
`False` with the store untouched.  On publish success it appends a
`published` log entry and updates the product's statistics; when
`post_product` reports a non-success result it appends a `failed` log
entry; when `post_product` returns `None` (publish-init failed) it exits
with no store mutation at all. -/
def run_single_post (env : RunEnv) (dry_run : Bool) (product_id : Option String)
    (db : DB) : Bool × DB :=
  let productOpt := match product_id with
    | some pid => get_product pid db.products
    | none => get_next_product_for_posting db.products
  match productOpt with
  | none => (false, db)
  | some product =>
    if truthy product.image_url = false then (false, db)
    else
      match env.hostedUrl with
      | none => (false, db)
      | some hosted =>
        if hosted.isEmpty then (false, db)
        else
          match env.genResult with
          | none => (false, db)
          | some post_data =>
            if dry_run then (true, db)
            else
              match post_product env.initResult env.poll with
              | none => (false, db)
              | some result =>
                if result.success then
                  let posts1 := add_post_log
                    { item_id := product.item_id, post_text := some post_data.full_text,
                      hosted_image_url := some hosted,
                      tiktok_publish_id := some result.publish_id,
                      status := some "published" } db.posts
                  let updated := update_product env.now product.item_id
                    { last_posted_at := some (some env.now),
                      post_count := some (product.post_count + 1) } db.products
                  (true, { products := updated.2, posts := posts1 })
                else
                  let posts1 := add_post_log
                    { item_id := product.item_id, post_text := some post_data.full_text,
                      hosted_image_url := some hosted,
                      tiktok_publish_id := some result.publish_id,
                      status := some "failed" } db.posts
                  (false, { db with posts := posts1 })

/-- Post count of the first row matching `item_id`, for stating statistics
properties. -/
def getPostCount (db : List Product) (item_id : String) : Option Nat :=
  (db.find? (fun p => p.item_id == item_id)).map (·.post_count)

/-! ## Derived predicates used in the statements -/

/-- Poll `j` does not observe a status that `wait_for_publish` recognises
as terminal (this includes a failed status check, `poll j = none`). -/
def notTerminal (poll : Nat → Option StatusResult) (j : Nat) : Prop :=
  ∀ st, poll j = some st →
    st.status ≠ some STATUS_PUBLISH_COMPLETE ∧ st.status ≠ some STATUS_FAILED

/-- Result dictionary `wait_for_publish` builds from a terminal status
observation. -/
def mkTerminal (st : StatusResult) : WaitResult :=
  if st.status = some STATUS_PUBLISH_COMPLETE then
    { success := true, status := STATUS_PUBLISH_COMPLETE, fail_reason := "" }
  else { success := false, status := STATUS_FAILED, fail_reason := st.fail_reason }

/-- Attempt `i` of the generation loop succeeds: the service replies, the
parse extracts a non-empty body, and the assembled full text validates. -/
def goodAttempt (api : Nat → Option String) (parse : String → PostText)
    (validate : String → Bool) (i : Nat) : Prop :=
  ∃ t, api i = some t ∧ (parse t).body ≠ "" ∧ validate (parse t).full_text = true

/-! ## Concrete example values -/

/-- Expired Credential Record with a refresh token, used as a concrete
token-manager input. -/
def tokOld : Tokens :=
  { access_token := some "old-token", refresh_token := some "refresh-1",
    expires_at := some 5, open_id := none }

/-- Successful refresh-exchange reply. -/
def replyNew : ExchangeReply :=
  { access_token := "new-token", refresh_token := none, expires_in := some 100,
    open_id := none }

/-- Token-manager environment at time 10 (so `tokOld` is expired) whose
refresh exchange succeeds but whose tokens-file write fails. -/
def envSaveFail : TMEnv :=
  { envToken := none, now := 10, exchange := some replyNew, saveOk := false }

/-- Same environment with a succeeding tokens-file write. -/
def envSaveOk : TMEnv :=
  { envToken := none, now := 10, exchange := some replyNew, saveOk := true }

/-- Token-manager state whose tokens file holds `tokOld`, nothing cached. -/
def stateOld : TMState := { fileTokens := some tokOld, memTokens := none }

/-- Status source: `PROCESSING_UPLOAD` on the first two polls, then
`PUBLISH_COMPLETE` (the spec's third-poll example). -/
def pollUploadThenComplete : Nat → Option StatusResult := fun i =>
  if i < 2 then some { status := some "PROCESSING_UPLOAD", fail_reason := "" }
  else some { status := some STATUS_PUBLISH_COMPLETE, fail_reason := "" }

/-- Status source that always reports `SEND_TO_USER_INBOX`. -/
def pollInbox : Nat → Option StatusResult := fun _ =>
  some { status := some STATUS_SEND_TO_USER_INBOX, fail_reason := "" }

/-- Status source that always reports `FAILED`. -/
def pollFailed : Nat → Option StatusResult := fun _ =>
  some { status := some STATUS_FAILED, fail_reason := "content rejected" }

/-- Status source whose checks always fail. -/
def pollNever : Nat → Option StatusResult := fun _ => none

/-- Product A of the spec's rotation example: never posted. -/
def prodA : Product :=
  { item_id := "A", item_name := "a", price := none, image_url := none,
    category := none, description := none, affiliate_url := none,
    last_posted_at := none, post_count := 0, is_active := true, updated_at := 0 }

/-- Product B of the spec's rotation example: `post_count = 2`. -/
def prodB : Product := { prodA with item_id := "B", last_posted_at := some 50, post_count := 2 }

/-- Product C of the spec's rotation example: `post_count = 0`, posted once. -/
def prodC : Product := { prodA with item_id := "C", last_posted_at := some 10 }

/-- Active product with an image, as selected by an orchestration run. -/
def prodImaged : Product :=
  { item_id := "p1", item_name := "item", price := some 2980,
    image_url := some "https://x/img.jpg", category := none, description := none,
    affiliate_url := none, last_posted_at := none, post_count := 0,
    is_active := true, updated_at := 0 }

/-- Store holding the single product `prodImaged` and no log entries. -/
def dbOne : DB := { products := [prodImaged], posts := [] }

/-- Concrete generated post. -/
def genText : PostText :=
  { body := "PR text", hashtags := ["#a"], full_text := "PR text\n\n#a" }

/-- Orchestration environment whose publish-init call fails. -/
def envInitFail : RunEnv :=
  { hostedUrl := some "https://host/img.jpg", genResult := some genText,
    initResult := none, poll := pollNever, now := 7 }

/-- Orchestration environment whose publish reaches `FAILED`. -/
def envPublishFailed : RunEnv := { envInitFail with initResult := some "pub_1", poll := pollFailed }

/-- Orchestration environment whose publish completes. -/
def envPublishOk : RunEnv :=
  { envInitFail with initResult := some "pub_1", poll := pollUploadThenComplete }

/-- Re-registration input for the product `p1`. -/
def newDataX : NewProductData :=
  { item_id := "p1", item_name := "item", price := none, image_url := none,
    category := none, description := none, affiliate_url := none }

/-- Product `p1` after two successful publishes. -/
def prodTwice : Product := { prodImaged with post_count := 2, last_posted_at := some 3 }

/-- Generation service that replies with an empty body on the first
attempt and a valid reply on the second. -/
def apiSecondTry : Nat → Option String := fun i => if i = 1 then some "PR ok" else some ""

/-- Parse function for the concrete generation example: the reply is the
body and the full text. -/
def parseAsBody : String → PostText := fun t => { body := t, hashtags := [], full_text := t }

/-- Validation for the concrete generation example. -/
def validateExact : String → Bool := fun t => t == "PR ok"

/-! ## Lemmas about the publish wait loop -/

theorem waitAux_isSome (poll : Nat → Option StatusResult) (timeout interval : Nat)
    (hi : 0 < interval) :
    ∀ fuel i, timeout ≤ i + fuel →
      (waitForPublishAux poll timeout interval i (fuel + 1)).isSome = true := by
  intro fuel
  induction fuel with
  | zero =>
    intro i h
    have hle : i ≤ i * interval := Nat.le_mul_of_pos_right i hi
    have hnc : ¬ i * interval < timeout := by omega
    simp [waitForPublishAux, hnc]
  | succ n ih =>
    intro i h
    by_cases hc : i * interval < timeout
    · cases hp : poll i with
      | none =>
        simp only [waitForPublishAux, hc, if_true, hp]
        exact ih (i + 1) (by omega)
      | some st =>
        by_cases h1 : st.status = some STATUS_PUBLISH_COMPLETE
        · simp [waitForPublishAux, hc, hp, h1]
        · by_cases h2 : st.status = some STATUS_FAILED
          · simp [waitForPublishAux, hc, hp, h1, h2, STATUS_FAILED, STATUS_PUBLISH_COMPLETE]
          · simp only [waitForPublishAux, hc, if_true, hp, h1, h2, if_false]
            exact ih (i + 1) (by omega)
    · simp [waitForPublishAux, hc]

theorem waitAux_timeout_le (poll : Nat → Option StatusResult) (timeout interval : Nat) :
    ∀ fuel i r e, waitForPublishAux poll timeout interval i fuel = some (r, e) →
      r.status = "TIMEOUT" → timeout ≤ e := by
  intro fuel
  induction fuel with
  | zero => intro i r e h; simp [waitForPublishAux] at h
  | succ n ih =>
    intro i r e h hst
    by_cases hc : i * interval < timeout
    · rw [waitForPublishAux, if_pos hc] at h
      split at h
      · exact ih (i + 1) r e h hst
      · split at h
        · simp only [Option.some.injEq, Prod.mk.injEq] at h
          obtain ⟨hr, he⟩ := h
          subst hr
          simp [STATUS_PUBLISH_COMPLETE] at hst
        · split at h
          · simp only [Option.some.injEq, Prod.mk.injEq] at h
            obtain ⟨hr, he⟩ := h
            subst hr
            simp [STATUS_FAILED] at hst
          · exact ih (i + 1) r e h hst
    · rw [waitForPublishAux, if_neg hc] at h
      simp only [Option.some.injEq, Prod.mk.injEq] at h
      obtain ⟨hr, he⟩ := h
      omega

theorem waitAux_never_terminal (poll : Nat → Option StatusResult) (timeout interval : Nat)
    (hnt : ∀ j, notTerminal poll j) :
    ∀ fuel i r e, waitForPublishAux poll timeout interval i fuel = some (r, e) →
      r = timeoutResult ∧ timeout ≤ e := by
  intro fuel
  induction fuel with
  | zero => intro i r e h; simp [waitForPublishAux] at h
  | succ n ih =>
    intro i r e h
    by_cases hc : i * interval < timeout
    · rw [waitForPublishAux, if_pos hc] at h
      split at h
      · exact ih (i + 1) r e h
      · rename_i st hp
        obtain ⟨hn1, hn2⟩ := hnt i st hp
        rw [if_neg hn1, if_neg hn2] at h
        exact ih (i + 1) r e h
    · rw [waitForPublishAux, if_neg hc] at h
      simp only [Option.some.injEq, Prod.mk.injEq] at h
      obtain ⟨hr, he⟩ := h
      subst hr he
      exact ⟨rfl, by omega⟩

theorem waitAux_first_terminal (poll : Nat → Option StatusResult) (timeout interval : Nat)
    (i₀ : Nat) (st₀ : StatusResult)
    (hn : ∀ j, j < i₀ → notTerminal poll j) (hp : poll i₀ = some st₀)
    (hterm : st₀.status = some STATUS_PUBLISH_COMPLETE ∨ st₀.status = some STATUS_FAILED)
    (hlt : i₀ * interval < timeout) :
    ∀ fuel i, i ≤ i₀ → i₀ - i < fuel →
      waitForPublishAux poll timeout interval i fuel = some (mkTerminal st₀, i₀ * interval) := by
  intro fuel
  induction fuel with
  | zero => intro i hle hfuel; omega
  | succ n ih =>
    intro i hle hfuel
    rcases Nat.lt_or_ge i i₀ with hlt2 | hge
    · have hci : i * interval < timeout :=
        Nat.lt_of_le_of_lt (Nat.mul_le_mul_right interval (Nat.le_of_lt hlt2)) hlt
      rw [waitForPublishAux, if_pos hci]
      cases hpi : poll i with
      | none => exact ih (i + 1) (by omega) (by omega)
      | some st =>
        obtain ⟨hn1, hn2⟩ := hn i hlt2 st hpi
        dsimp only
        rw [if_neg hn1, if_neg hn2]
        exact ih (i + 1) (by omega) (by omega)
    · have hii : i = i₀ := Nat.le_antisymm hle hge
      subst hii
      rw [waitForPublishAux, if_pos hlt, hp]
      dsimp only
      rcases hterm with h1 | h1
      · rw [if_pos h1]
        rw [mkTerminal, if_pos h1]
      · have hne : ¬ st₀.status = some STATUS_PUBLISH_COMPLETE := by
          rw [h1]; simp [STATUS_FAILED, STATUS_PUBLISH_COMPLETE]
        rw [if_neg hne, if_pos h1]
        rw [mkTerminal, if_neg hne]

theorem waitAux_invariant (poll : Nat → Option StatusResult) (timeout interval : Nat) :
    ∀ fuel i r e, waitForPublishAux poll timeout interval i fuel = some (r, e) →
      ((r.success = true ↔ r.status = STATUS_PUBLISH_COMPLETE) ∧
        (r.success = true → r.fail_reason = "")) := by
  intro fuel
  induction fuel with
  | zero => intro i r e h; simp [waitForPublishAux] at h
  | succ n ih =>
    intro i r e h
    by_cases hc : i * interval < timeout
    · rw [waitForPublishAux, if_pos hc] at h
      split at h
      · exact ih (i + 1) r e h
      · split at h
        · simp only [Option.some.injEq, Prod.mk.injEq] at h
          obtain ⟨hr, he⟩ := h
          subst hr
          simp
        · split at h
          · simp only [Option.some.injEq, Prod.mk.injEq] at h
            obtain ⟨hr, he⟩ := h
            subst hr
            simp [STATUS_FAILED, STATUS_PUBLISH_COMPLETE]
          · exact ih (i + 1) r e h
    · rw [waitForPublishAux, if_neg hc] at h
      simp only [Option.some.injEq, Prod.mk.injEq] at h
      obtain ⟨hr, he⟩ := h
      subst hr
      simp [timeoutResult, STATUS_PUBLISH_COMPLETE]

theorem wait_for_publish_eq_aux (poll : Nat → Option StatusResult) (timeout interval : Nat)
    (hi : 0 < interval) :
    waitForPublishAux poll timeout interval 0 (timeout + 1) =
      some (wait_for_publish poll timeout interval) := by
  have hs := waitAux_isSome poll timeout interval hi timeout 0 (by omega)
  obtain ⟨x, hx⟩ := Option.isSome_iff_exists.mp hs
  rw [wait_for_publish, hx]
  rfl

theorem wait_first_terminal (poll : Nat → Option StatusResult) (timeout interval : Nat)
    (hi : 0 < interval) (i₀ : Nat) (st₀ : StatusResult)
    (hn : ∀ j, j < i₀ → notTerminal poll j) (hp : poll i₀ = some st₀)
    (hterm : st₀.status = some STATUS_PUBLISH_COMPLETE ∨ st₀.status = some STATUS_FAILED)
    (hlt : i₀ * interval < timeout) :
    wait_for_publish poll timeout interval = (mkTerminal st₀, i₀ * interval) := by
  have hi0 : i₀ ≤ i₀ * interval := Nat.le_mul_of_pos_right i₀ hi
  have h := waitAux_first_terminal poll timeout interval i₀ st₀ hn hp hterm hlt
    (timeout + 1) 0 (Nat.zero_le i₀) (by omega)
  have h2 := wait_for_publish_eq_aux poll timeout interval hi
  rw [h] at h2
  exact (Option.some.injEq .. ▸ h2).symm

theorem wait_never_terminal (poll : Nat → Option StatusResult) (timeout interval : Nat)
    (hi : 0 < interval) (hnt : ∀ j, notTerminal poll j) :
    (wait_for_publish poll timeout interval).1 = timeoutResult ∧
      timeout ≤ (wait_for_publish poll timeout interval).2 := by
  have h2 := wait_for_publish_eq_aux poll timeout interval hi
  have h := waitAux_never_terminal poll timeout interval hnt (timeout + 1) 0
    (wait_for_publish poll timeout interval).1 (wait_for_publish poll timeout interval).2
    (by rw [h2])
  exact h

theorem wait_timeout_not_early (poll : Nat → Option StatusResult) (timeout interval : Nat)
    (hi : 0 < interval)
    (hst : (wait_for_publish poll timeout interval).1.status = "TIMEOUT") :
    timeout ≤ (wait_for_publish poll timeout interval).2 := by
  have h2 := wait_for_publish_eq_aux poll timeout interval hi
  exact waitAux_timeout_le poll timeout interval (timeout + 1) 0
    (wait_for_publish poll timeout interval).1 (wait_for_publish poll timeout interval).2
    (by rw [h2]) hst

/-! ## Lemmas about the generation loop -/

theorem generateAttempts_calls_le (api : Nat → Option String) (parse : String → PostText)
    (validate : String → Bool) :
    ∀ n i, (generateAttempts api parse validate i n).2 ≤ n := by
  intro n
  induction n with
  | zero => intro i; simp [generateAttempts]
  | succ m ih =>
    intro i
    rw [generateAttempts]
    cases api i with
    | none => dsimp only; have := ih (i + 1); omega
    | some text =>
      dsimp only
      by_cases hb : (parse text).body = ""
      · rw [if_pos hb]; have := ih (i + 1); omega
      · rw [if_neg hb]
        by_cases hv : validate (parse text).full_text
        · rw [if_pos hv]; omega
        · rw [if_neg hv]; have := ih (i + 1); omega

theorem generateAttempts_none (api : Nat → Option String) (parse : String → PostText)
    (validate : String → Bool) :
    ∀ n i, (∀ k, k < n → ¬ goodAttempt api parse validate (i + k)) →
      generateAttempts api parse validate i n = (none, n) := by
  intro n
  induction n with
  | zero => intro i _; rfl
  | succ m ih =>
    intro i h
    have hshift : ∀ k, k < m → ¬ goodAttempt api parse validate (i + 1 + k) := by
      intro k hk
      have := h (k + 1) (by omega)
      rwa [show i + (k + 1) = i + 1 + k by omega] at this
    rw [generateAttempts]
    cases hapi : api i with
    | none => rw [ih (i + 1) hshift]
    | some text =>
      dsimp only
      by_cases hb : (parse text).body = ""
      · rw [if_pos hb, ih (i + 1) hshift]
      · rw [if_neg hb]
        by_cases hv : validate (parse text).full_text
        · exact absurd (show goodAttempt api parse validate i from ⟨text, hapi, hb, hv⟩)
            (by simpa using h 0 (by omega))
        · rw [if_neg hv, ih (i + 1) hshift]

theorem generateAttempts_first (api : Nat → Option String) (parse : String → PostText)
    (validate : String → Bool) :
    ∀ n i k t, k < n → (∀ j, j < k → ¬ goodAttempt api parse validate (i + j)) →
      api (i + k) = some t → (parse t).body ≠ "" → validate (parse t).full_text = true →
      generateAttempts api parse validate i n = (some (parse t), k + 1) := by
  intro n
  induction n with
  | zero => intro i k t hk; omega
  | succ m ih =>
    intro i k t hk hj hapi hb hv
    cases k with
    | zero =>
      rw [generateAttempts]
      rw [show i + 0 = i from rfl] at hapi
      rw [hapi]
      dsimp only
      rw [if_neg hb, if_pos hv]
    | succ k2 =>
      have hg0 : ¬ goodAttempt api parse validate i := by simpa using hj 0 (by omega)
      have hj2 : ∀ j, j < k2 → ¬ goodAttempt api parse validate (i + 1 + j) := by
        intro j hjlt
        have := hj (j + 1) (by omega)
        rwa [show i + (j + 1) = i + 1 + j by omega] at this
      have hapi2 : api (i + 1 + k2) = some t := by
        rwa [show i + 1 + k2 = i + (k2 + 1) by omega]
      have hrec := ih (i + 1) k2 t (by omega) hj2 hapi2 hb hv
      rw [generateAttempts]
      cases hapi0 : api i with
      | none => rw [hrec]
      | some text =>
        dsimp only
        by_cases hb0 : (parse text).body = ""
        · rw [if_pos hb0, hrec]
        · rw [if_neg hb0]
          by_cases hv0 : validate (parse text).full_text
          · exact absurd (show goodAttempt api parse validate i from ⟨text, hapi0, hb0, hv0⟩) hg0
          · rw [if_neg hv0, hrec]

/-! ## Lemmas about the rotation ordering -/

theorem lexLe_total (x y : Nat × Nat × Nat) : lexLe x y ∨ lexLe y x := by
  unfold lexLe; omega

theorem lexLe_trans {x y z : Nat × Nat × Nat} (h1 : lexLe x y) (h2 : lexLe y z) :
    lexLe x z := by
  unfold lexLe at h1 h2 ⊢; omega

instance : IsTotal Product rotLE := ⟨fun a b => lexLe_total (rotKey a) (rotKey b)⟩

instance : IsTrans Product rotLE := ⟨fun _ _ _ => lexLe_trans⟩

/-! ## Lemmas about the product store -/

theorem find?_append_of_none {α : Type} (p : α → Bool) (l1 l2 : List α)
    (h : l1.find? p = none) : (l1 ++ l2).find? p = l2.find? p := by
  induction l1 with
  | nil => rfl
  | cons a t ih =>
    rw [List.find?_cons] at h
    rw [List.cons_append, List.find?_cons]
    cases hp : p a with
    | true => rw [hp] at h; simp at h
    | false =>
      rw [hp] at h
      exact ih h

theorem getPostCount_add_product (now : Nat) (d : NewProductData) (db : List Product) :
    getPostCount (add_product now d db) d.item_id = some 0 := by
  rw [getPostCount, add_product]
  have hnone : (db.filter (fun p => p.item_id ≠ d.item_id)).find?
      (fun p => p.item_id == d.item_id) = none := by
    rw [List.find?_eq_none]
    intro x hx
    have hne := (List.mem_filter.mp hx).2
    simp only [decide_not, Bool.not_eq_true'] at hne
    simpa using hne
  rw [find?_append_of_none _ _ _ hnone, List.find?_cons]
  simp

theorem truthy_none : truthy none = false := rfl

/-! ## Lemmas about the orchestration paths -/

theorem run_init_fail (env : RunEnv) (db : DB) (p : Product) (h : String) (gt : PostText)
    (hsel : get_next_product_for_posting db.products = some p)
    (himg : truthy p.image_url = true)
    (hhost : env.hostedUrl = some h) (hne : h.isEmpty = false)
    (hgen : env.genResult = some gt)
    (hinit : env.initResult = none) :
    run_single_post env false none db = (false, db) := by
  simp [run_single_post, hsel, himg, hhost, hne, hgen, hinit, post_product]

theorem run_publish_failed (env : RunEnv) (db : DB) (p : Product) (h pid : String) (gt : PostText)
    (hsel : get_next_product_for_posting db.products = some p)
    (himg : truthy p.image_url = true)
    (hhost : env.hostedUrl = some h) (hne : h.isEmpty = false)
    (hgen : env.genResult = some gt)
    (hinit : env.initResult = some pid)
    (hfail : (wait_for_publish env.poll 120 5).1.success = false) :
    run_single_post env false none db =
      (false, { products := db.products,
                posts := db.posts ++
                  [{ item_id := p.item_id, post_text := some gt.full_text,
                     hosted_image_url := some h, tiktok_publish_id := some pid,
                     status := "failed" }] }) := by
  simp [run_single_post, hsel, himg, hhost, hne, hgen, hinit, post_product, hfail, add_post_log]

theorem run_publish_success (env : RunEnv) (db : DB) (p : Product) (h pid : String) (gt : PostText)
    (hsel : get_next_product_for_posting db.products = some p)
    (himg : truthy p.image_url = true)
    (hhost : env.hostedUrl = some h) (hne : h.isEmpty = false)
    (hgen : env.genResult = some gt)
    (hinit : env.initResult = some pid)
    (hsucc : (wait_for_publish env.poll 120 5).1.success = true) :
    run_single_post env false none db =
      (true, { products := (update_product env.now p.item_id
                  { last_posted_at := some (some env.now),
                    post_count := some (p.post_count + 1) } db.products).2,
               posts := db.posts ++
                  [{ item_id := p.item_id, post_text := some gt.full_text,
                     hosted_image_url := some h, tiktok_publish_id := some pid,
                     status := "published" }] }) := by
  simp [run_single_post, hsel, himg, hhost, hne, hgen, hinit, post_product, hsucc, add_post_log]

/-! ## Claims -/

/-- C1, counterexample: with the expired record `tokOld` on disk, a
succeeding refresh exchange and a failing tokens-file write,
`refresh_access_token` reports success (`True`), not failure, and
`get_access_token` returns the old cached access token, not `none`. -/
theorem tokenManager_save_failure_counterexample :
    (refresh_access_token envSaveFail stateOld).1 = true ∧
    (get_access_token envSaveFail stateOld).1 = some "old-token" ∧
    (get_access_token envSaveFail stateOld).1 ≠ none := by
  decide

/-- C1, amended: if the refresh exchange succeeds but persisting the new
Credential Record fails with an I/O error, the refresh is NOT treated as
failed: `refresh_access_token` still reports success, the persisted record
is left unchanged, and `get_access_token` (called on an expired record)
returns the previously stored access token rather than none. -/
theorem tokenManager_save_failure_behaviour (t : Tokens) (env : TMEnv) (e : Nat) (a : String)
    (r : ExchangeReply)
    (henv : env.envToken = none) (hsave : env.saveOk = false)
    (hex : env.exchange = some r)
    (hexp : t.expires_at = some e) (hpast : e < env.now)
    (href : truthy t.refresh_token = true)
    (hacc : t.access_token = some a) :
    (refresh_access_token env { fileTokens := some t, memTokens := some t }).1 = true ∧
    (refresh_access_token env { fileTokens := some t, memTokens := some t }).2.1.fileTokens
      = some t ∧
    (get_access_token env { fileTokens := some t, memTokens := none }).1 = some a := by
  have hrefresh :
      refresh_access_token env { fileTokens := some t, memTokens := some t } =
        (true, { fileTokens := some t, memTokens := some t }, 1) := by
    rw [refresh_access_token]
    simp [href, hex, save_tokens, hsave]
  refine ⟨by rw [hrefresh], by rw [hrefresh], ?_⟩
  rw [get_access_token]
  simp only [henv, truthy, Bool.false_eq_true, if_false, load_tokens]
  simp only [hexp]
  rw [if_pos (show env.now > e from hpast), hrefresh]
  simp [hacc]

/-- C1, witness for the amended theorem at the concrete expired record
`tokOld` and environment `envSaveFail`. -/
theorem tokenManager_save_failure_behaviour_witness :
    (refresh_access_token envSaveFail { fileTokens := some tokOld, memTokens := some tokOld }).1
      = true ∧
    (refresh_access_token envSaveFail
        { fileTokens := some tokOld, memTokens := some tokOld }).2.1.fileTokens = some tokOld ∧
    (get_access_token envSaveFail { fileTokens := some tokOld, memTokens := none }).1
      = some "old-token" :=
  tokenManager_save_failure_behaviour tokOld envSaveFail 5 "old-token" replyNew rfl rfl rfl rfl
    (by decide) (by decide) rfl

/-- C7: with no out-of-band override token configured, `get_access_token`
refreshes if and only if the loaded Credential Record has `expires_at` set
and in the past: an expired record with a present refresh token triggers
exactly one refresh exchange before returning the (new) token, a record
expiring in the future triggers none and returns the stored token, and a
record without `expires_at` triggers none. -/
theorem get_access_token_refresh_iff (env : TMEnv) (t : Tokens)
    (henv : env.envToken = none) :
    (∀ e r, t.expires_at = some e → e < env.now → truthy t.refresh_token = true →
      env.exchange = some r → env.saveOk = true →
      (get_access_token env { fileTokens := some t, memTokens := none }).2.2 = 1 ∧
      (get_access_token env { fileTokens := some t, memTokens := none }).1
        = some r.access_token) ∧
    (∀ e, t.expires_at = some e → env.now ≤ e →
      (get_access_token env { fileTokens := some t, memTokens := none }).2.2 = 0 ∧
      (get_access_token env { fileTokens := some t, memTokens := none }).1
        = t.access_token) ∧
    (t.expires_at = none →
      (get_access_token env { fileTokens := some t, memTokens := none }).2.2 = 0 ∧
      (get_access_token env { fileTokens := some t, memTokens := none }).1
        = t.access_token) := by
  refine ⟨?_, ?_, ?_⟩
  · intro e r hexp hpast href hex hsave
    rw [get_access_token]
    simp [henv, truthy_none, load_tokens, hexp, hpast, refresh_access_token, href, hex,
      save_tokens, hsave]
  · intro e hexp hfut
    have hn : ¬ env.now > e := Nat.not_lt.mpr hfut
    rw [get_access_token]
    simp [henv, truthy_none, load_tokens, hexp, hn]
  · intro hexp
    rw [get_access_token]
    simp [henv, truthy_none, load_tokens, hexp]

/-- C7, witness: the expired record `tokOld` in environment `envSaveOk`
triggers exactly one refresh exchange and yields the new token, while the
same record at time 3 (not yet expired) triggers none. -/
theorem get_access_token_refresh_iff_witness :
    (get_access_token envSaveOk { fileTokens := some tokOld, memTokens := none }).2.2 = 1 ∧
    (get_access_token envSaveOk { fileTokens := some tokOld, memTokens := none }).1
      = some replyNew.access_token ∧
    (get_access_token { envSaveOk with now := 3 }
      { fileTokens := some tokOld, memTokens := none }).2.2 = 0 := by
  have h1 := get_access_token_refresh_iff envSaveOk tokOld rfl
  have h2 := get_access_token_refresh_iff { envSaveOk with now := 3 } tokOld rfl
  obtain ⟨ha, hb⟩ := h1.1 5 replyNew rfl (by decide) (by decide) rfl rfl
  exact ⟨ha, hb, (h2.2.1 5 rfl (by decide)).1⟩

/-- C3, counterexample: a status source that always reports
`SEND_TO_USER_INBOX` does not end the wait at that observation —
`wait_for_publish` (timeout 3, interval 1) polls until the deadline and
returns the synthetic `TIMEOUT` result at elapsed time 3. -/
theorem wait_inbox_counterexample :
    wait_for_publish pollInbox 3 1 = (timeoutResult, 3) ∧
    (wait_for_publish pollInbox 3 1).1.status ≠ STATUS_SEND_TO_USER_INBOX ∧
    (wait_for_publish pollInbox 3 1).1.status ≠ STATUS_PUBLISH_COMPLETE := by
  decide

/-- C3, amended: `wait_for_publish` stops polling and returns as soon as
the status source reports one of the two statuses it recognises as
terminal, `PUBLISH_COMPLETE` or `FAILED`; `SEND_TO_USER_INBOX` is not
treated as terminal, so a status source that always reports
`SEND_TO_USER_INBOX` keeps polling until the deadline and ends in
`TIMEOUT`. -/
theorem wait_terminal_statuses (timeout interval : Nat) (hi : 0 < interval) :
    (∀ (poll : Nat → Option StatusResult) (i₀ : Nat) (st₀ : StatusResult),
      (∀ j, j < i₀ → notTerminal poll j) → poll i₀ = some st₀ →
      (st₀.status = some STATUS_PUBLISH_COMPLETE ∨ st₀.status = some STATUS_FAILED) →
      i₀ * interval < timeout →
      wait_for_publish poll timeout interval = (mkTerminal st₀, i₀ * interval)) ∧
    (wait_for_publish pollInbox timeout interval).1 = timeoutResult := by
  constructor
  · intro poll i₀ st₀ hn hp hterm hlt
    exact wait_first_terminal poll timeout interval hi i₀ st₀ hn hp hterm hlt
  · refine (wait_never_terminal pollInbox timeout interval hi ?_).1
    intro j st h
    simp only [pollInbox, Option.some.injEq] at h
    subst h
    exact ⟨by decide, by decide⟩

/-- C3, witness for the amended theorem: a first poll reporting `FAILED`
ends the wait immediately, and the always-`SEND_TO_USER_INBOX` source
times out (timeout 3, interval 1). -/
theorem wait_terminal_statuses_witness :
    wait_for_publish pollFailed 3 1 =
      (mkTerminal { status := some STATUS_FAILED, fail_reason := "content rejected" }, 0) ∧
    (wait_for_publish pollInbox 3 1).1 = timeoutResult := by
  have h := wait_terminal_statuses 3 1 (by decide)
  refine ⟨?_, h.2⟩
  have h0 := h.1 pollFailed 0 { status := some STATUS_FAILED, fail_reason := "content rejected" }
    (fun j hj => absurd hj (Nat.not_lt_zero j)) rfl (Or.inr rfl) (by decide)
  simpa using h0

/-- C4, counterexample: with a status source returning `PUBLISH_COMPLETE`
on the 3rd poll and a 1-unit interval, `wait_for_publish` returns success
at elapsed time 2, not after at least 3 interval units: the source polls
at the top of each loop iteration, so the 3rd poll happens after two
sleeps. -/
theorem wait_third_poll_counterexample :
    wait_for_publish pollUploadThenComplete 120 1 =
      ({ success := true, status := STATUS_PUBLISH_COMPLETE, fail_reason := "" }, 2) ∧
    ¬ 3 ≤ (wait_for_publish pollUploadThenComplete 120 1).2 := by
  decide

/-- C4, amended: for a status source that returns `PUBLISH_COMPLETE` on
the 3rd poll and a 1-unit polling interval, `wait_for_publish` returns
success after at least 2 interval units of elapsed time and less than 3
(the first poll happens immediately, so the 3rd poll is at elapsed 2). -/
theorem wait_third_poll_success (poll : Nat → Option StatusResult) (timeout : Nat)
    (st₀ : StatusResult)
    (hn : ∀ j, j < 2 → notTerminal poll j)
    (hp : poll 2 = some st₀) (hst : st₀.status = some STATUS_PUBLISH_COMPLETE)
    (ht : 2 < timeout) :
    wait_for_publish poll timeout 1 =
      ({ success := true, status := STATUS_PUBLISH_COMPLETE, fail_reason := "" }, 2) ∧
    2 ≤ (wait_for_publish poll timeout 1).2 ∧ (wait_for_publish poll timeout 1).2 < 3 := by
  have h := wait_first_terminal poll timeout 1 (by decide) 2 st₀ hn hp (Or.inl hst)
    (by omega)
  rw [mkTerminal, if_pos hst] at h
  rw [show 2 * 1 = 2 from rfl] at h
  exact ⟨h, by rw [h], by rw [h]; decide⟩

/-- C4, witness at the concrete source `pollUploadThenComplete` with
timeout 120. -/
theorem wait_third_poll_success_witness :
    wait_for_publish pollUploadThenComplete 120 1 =
      ({ success := true, status := STATUS_PUBLISH_COMPLETE, fail_reason := "" }, 2) ∧
    2 ≤ (wait_for_publish pollUploadThenComplete 120 1).2 ∧
    (wait_for_publish pollUploadThenComplete 120 1).2 < 3 := by
  have hn : ∀ j, j < 2 → notTerminal pollUploadThenComplete j := by
    intro j hj st h
    simp only [pollUploadThenComplete, if_pos hj, Option.some.injEq] at h
    subst h
    exact ⟨by decide, by decide⟩
  exact wait_third_poll_success pollUploadThenComplete 120
    { status := some STATUS_PUBLISH_COMPLETE, fail_reason := "" } hn rfl rfl (by decide)

/-- C9: when the status source never reports a status that
`wait_for_publish` recognises as terminal (failed checks included),
the loop returns exactly the synthetic `TIMEOUT` result and only once the
elapsed time has reached the deadline; moreover any `TIMEOUT` return
happens at elapsed time at least the deadline, never earlier. -/
theorem wait_timeout_only_at_deadline (poll : Nat → Option StatusResult)
    (timeout interval : Nat) (hi : 0 < interval) :
    ((∀ j, notTerminal poll j) →
      (wait_for_publish poll timeout interval).1 = timeoutResult ∧
      timeout ≤ (wait_for_publish poll timeout interval).2) ∧
    ((wait_for_publish poll timeout interval).1.status = "TIMEOUT" →
      timeout ≤ (wait_for_publish poll timeout interval).2) :=
  ⟨fun hnt => wait_never_terminal poll timeout interval hi hnt,
   fun hst => wait_timeout_not_early poll timeout interval hi hst⟩

/-- C9, witness: a status source whose checks always fail (timeout 3,
interval 1) returns `TIMEOUT` at elapsed time at least 3. -/
theorem wait_timeout_only_at_deadline_witness :
    (wait_for_publish pollNever 3 1).1 = timeoutResult ∧
    3 ≤ (wait_for_publish pollNever 3 1).2 :=
  (wait_timeout_only_at_deadline pollNever 3 1 (by decide)).1
    (fun j st h => by simp [pollNever] at h)

/-- C10: every result dictionary returned by `wait_for_publish` satisfies
the invariant that `success` is true if and only if `status` equals
`PUBLISH_COMPLETE`, and whenever `success` is true the `fail_reason` field
is the empty string. -/
theorem wait_result_invariant (poll : Nat → Option StatusResult) (timeout interval : Nat) :
    ((wait_for_publish poll timeout interval).1.success = true ↔
      (wait_for_publish poll timeout interval).1.status = STATUS_PUBLISH_COMPLETE) ∧
    ((wait_for_publish poll timeout interval).1.success = true →
      (wait_for_publish poll timeout interval).1.fail_reason = "") := by
  rw [wait_for_publish]
  cases hx : waitForPublishAux poll timeout interval 0 (timeout + 1) with
  | none => simp [timeoutResult, STATUS_PUBLISH_COMPLETE]
  | some x =>
    obtain ⟨r, e⟩ := x
    simpa using waitAux_invariant poll timeout interval (timeout + 1) 0 r e hx

/-- C10, witness at the concrete sources `pollFailed` and
`pollUploadThenComplete`. -/
theorem wait_result_invariant_witness :
    (((wait_for_publish pollFailed 3 1).1.success = true ↔
      (wait_for_publish pollFailed 3 1).1.status = STATUS_PUBLISH_COMPLETE) ∧
    ((wait_for_publish pollFailed 3 1).1.success = true →
      (wait_for_publish pollFailed 3 1).1.fail_reason = "")) ∧
    ((wait_for_publish pollUploadThenComplete 120 1).1.success = true ↔
      (wait_for_publish pollUploadThenComplete 120 1).1.status = STATUS_PUBLISH_COMPLETE) :=
  ⟨wait_result_invariant pollFailed 3 1,
   (wait_result_invariant pollUploadThenComplete 120 1).1⟩

/-- C6: `get_products_for_posting` returns only active products, ordered
by the rotation key (never-posted first, then ascending `post_count`,
then ascending `last_posted_at`); for the spec's products A (never
posted), B (`post_count = 2`), C (`post_count = 0`, posted once) the
result is [A, C, B] for every input order; and
`get_next_product_for_posting` returns the first candidate or `none` when
the candidate list is empty. -/
theorem rotation_selector_ordering (db : List Product) :
    (∀ p ∈ get_products_for_posting db, p.is_active = true) ∧
    List.Sorted rotLE (get_products_for_posting db) ∧
    get_next_product_for_posting db = (get_products_for_posting db).head? ∧
    (∀ l : List Product, l.Perm [prodA, prodB, prodC] →
      get_products_for_posting l = [prodA, prodC, prodB]) := by
  refine ⟨?_, ?_, rfl, ?_⟩
  · intro p hp
    rw [get_products_for_posting] at hp
    have h2 := (List.mem_insertionSort rotLE).mp hp
    exact (List.mem_filter.mp h2).2
  · rw [get_products_for_posting]
    exact List.sorted_insertionSort rotLE _
  · intro l hl
    have hmem : l ∈ ([prodA, prodB, prodC] : List Product).permutations' :=
      List.mem_permutations'.mpr hl
    have hall : ∀ x ∈ ([prodA, prodB, prodC] : List Product).permutations',
        get_products_for_posting x = [prodA, prodC, prodB] := by decide
    exact hall l hmem

/-- C6, witness at the concrete input order [B, C, A]. -/
theorem rotation_selector_ordering_witness :
    get_products_for_posting [prodB, prodC, prodA] = [prodA, prodC, prodB] ∧
    get_next_product_for_posting [prodB, prodC, prodA] =
      (get_products_for_posting [prodB, prodC, prodA]).head? ∧
    prodA.is_active = true := by
  have h := rotation_selector_ordering [prodB, prodC, prodA]
  refine ⟨h.2.2.2 [prodB, prodC, prodA] (by decide), h.2.2.1, ?_⟩
  exact h.1 prodA (by decide)

/-- C8: with an API key configured, `generate_post_text` calls the
generative-text service at most `max_retries + 1` times; it returns the
parse of the first attempt whose body is non-empty and whose assembled
full text validates, having made exactly that many calls (empty-body
parses and validation failures are retried, as are service exceptions);
and it returns `none` after exactly `max_retries + 1` calls when no
attempt is good. -/
theorem generation_retry_loop (api : Nat → Option String) (parse : String → PostText)
    (validate : String → Bool) (max_retries : Nat) :
    (generate_post_text true api parse validate max_retries).2 ≤ max_retries + 1 ∧
    (∀ k t, k ≤ max_retries → (∀ j, j < k → ¬ goodAttempt api parse validate j) →
      api k = some t → (parse t).body ≠ "" → validate (parse t).full_text = true →
      generate_post_text true api parse validate max_retries = (some (parse t), k + 1)) ∧
    ((∀ k, k ≤ max_retries → ¬ goodAttempt api parse validate k) →
      generate_post_text true api parse validate max_retries =
        (none, max_retries + 1)) := by
  refine ⟨?_, ?_, ?_⟩
  · rw [generate_post_text, if_pos rfl]
    exact generateAttempts_calls_le api parse validate (max_retries + 1) 0
  · intro k t hk hj hapi hb hv
    rw [generate_post_text, if_pos rfl]
    exact generateAttempts_first api parse validate (max_retries + 1) 0 k t (by omega)
      (fun j hjk => by simpa using hj j hjk) (by simpa using hapi) hb hv
  · intro h
    rw [generate_post_text, if_pos rfl]
    exact generateAttempts_none api parse validate (max_retries + 1) 0
      (fun k hk => by simpa using h k (by omega))

/-- C8, witness: a service replying with an empty body on the first
attempt and a valid reply on the second, with `max_retries = 2`, returns
the second attempt's parse after exactly 2 calls. -/
theorem generation_retry_loop_witness :
    generate_post_text true apiSecondTry parseAsBody validateExact 2 =
      (some (parseAsBody "PR ok"), 2) ∧
    (generate_post_text true apiSecondTry parseAsBody validateExact 2).2 ≤ 3 := by
  have h := generation_retry_loop apiSecondTry parseAsBody validateExact 2
  refine ⟨h.2.1 1 "PR ok" (by omega) ?_ rfl (by decide) (by decide), h.1⟩
  intro j hj hg
  have hj0 : j = 0 := by omega
  subst hj0
  obtain ⟨t, h1, h2, h3⟩ := hg
  simp only [apiSecondTry, if_neg (by decide : ¬ (0 : Nat) = 1), Option.some.injEq] at h1
  subst h1
  exact h2 rfl

/-- C2, counterexample: a publish attempt that proceeds past content
generation and whose publish-init call fails exits with failure but
appends NO log entry at all (and leaves the store untouched), contrary to
the claim that every such failed attempt appends a `failed` log entry. -/
theorem orchestrator_init_failure_counterexample :
    run_single_post envInitFail false none dbOne = (false, dbOne) ∧
    (run_single_post envInitFail false none dbOne).2.posts = [] := by
  decide

/-- C2, amended: for a publish attempt that proceeds past content
generation, when publish-init succeeds but the wait ends in a non-success
result (`FAILED` or `TIMEOUT`) the Orchestrator appends a log entry with
status `failed` and leaves the product list (hence `post_count` and
`last_posted_at`) unchanged; when publish-init itself fails it reports
failure with no log entry appended and the store entirely unchanged. -/
theorem orchestrator_failure_logging (env : RunEnv) (db : DB) (p : Product) (h pid : String)
    (gt : PostText)
    (hsel : get_next_product_for_posting db.products = some p)
    (himg : truthy p.image_url = true)
    (hhost : env.hostedUrl = some h) (hne : h.isEmpty = false)
    (hgen : env.genResult = some gt) :
    (env.initResult = some pid → (wait_for_publish env.poll 120 5).1.success = false →
      run_single_post env false none db =
        (false, { products := db.products,
                  posts := db.posts ++
                    [{ item_id := p.item_id, post_text := some gt.full_text,
                       hosted_image_url := some h, tiktok_publish_id := some pid,
                       status := "failed" }] })) ∧
    (env.initResult = none → run_single_post env false none db = (false, db)) :=
  ⟨fun hinit hfail =>
      run_publish_failed env db p h pid gt hsel himg hhost hne hgen hinit hfail,
   fun hinit => run_init_fail env db p h gt hsel himg hhost hne hgen hinit⟩

/-- C2, witness: the store `dbOne` under the environment whose publish
reaches `FAILED` gains exactly one `failed` log entry with the product
list unchanged, and under the environment whose publish-init fails is
returned unchanged. -/
theorem orchestrator_failure_logging_witness :
    run_single_post envPublishFailed false none dbOne =
      (false, { products := dbOne.products,
                posts := dbOne.posts ++
                  [{ item_id := prodImaged.item_id, post_text := some genText.full_text,
                     hosted_image_url := some "https://host/img.jpg",
                     tiktok_publish_id := some "pub_1", status := "failed" }] }) ∧
    run_single_post envInitFail false none dbOne = (false, dbOne) := by
  have h1 := orchestrator_failure_logging envPublishFailed dbOne prodImaged
    "https://host/img.jpg" "pub_1" genText (by decide) (by decide) rfl rfl rfl
  have h2 := orchestrator_failure_logging envInitFail dbOne prodImaged
    "https://host/img.jpg" "unused" genText (by decide) (by decide) rfl rfl rfl
  exact ⟨h1.1 rfl (by decide), h2.2 rfl⟩

/-- C5, counterexample: `post_count` is not monotonically non-decreasing
under every operation: re-registering the product `p1` (which has
`post_count = 2`) via `add_product` resets its `post_count` to 0. -/
theorem post_count_reset_counterexample :
    getPostCount [prodTwice] "p1" = some 2 ∧
    getPostCount (add_product 9 newDataX [prodTwice]) "p1" = some 0 := by
  decide

/-- C5, amended: `post_count` is incremented by exactly one per successful
publish — the Orchestrator's post-publish update maps the selected
product's `post_count` to its selected value plus one (also stamping
`last_posted_at`) and leaves every other product unchanged — but it is not
monotonically non-decreasing under every operation: re-registering an
existing product via `add_product` resets its `post_count` to the schema
default 0. -/
theorem post_count_increment (env : RunEnv) (db : DB) (p : Product) (h pid : String)
    (gt : PostText)
    (hsel : get_next_product_for_posting db.products = some p)
    (himg : truthy p.image_url = true)
    (hhost : env.hostedUrl = some h) (hne : h.isEmpty = false)
    (hgen : env.genResult = some gt)
    (hinit : env.initResult = some pid)
    (hsucc : (wait_for_publish env.poll 120 5).1.success = true) :
    (run_single_post env false none db).2.products =
      db.products.map (fun q => if q.item_id == p.item_id then
        { q with
          last_posted_at := some env.now
          post_count := p.post_count + 1
          updated_at := env.now } else q) ∧
    (∀ (now : Nat) (d : NewProductData) (db2 : List Product),
      getPostCount (add_product now d db2) d.item_id = some 0) := by
  constructor
  · rw [run_publish_success env db p h pid gt hsel himg hhost hne hgen hinit hsucc]
    simp [update_product, hasUpdates, applyUpdate]
  · exact getPostCount_add_product

/-- C5, witness: a successful publish against `dbOne` takes `prodImaged`
from `post_count = 0` to `post_count = 1`, and re-registering `p1` resets
its `post_count` to 0. -/
theorem post_count_increment_witness :
    (run_single_post envPublishOk false none dbOne).2.products =
      dbOne.products.map (fun q => if q.item_id == prodImaged.item_id then
        { q with
          last_posted_at := some envPublishOk.now
          post_count := prodImaged.post_count + 1
          updated_at := envPublishOk.now } else q) ∧
    getPostCount (add_product 9 newDataX [prodTwice]) newDataX.item_id = some 0 := by
  have h := post_count_increment envPublishOk dbOne prodImaged "https://host/img.jpg"
    "pub_1" genText (by decide) (by decide) rfl rfl rfl rfl (by decide)
  exact ⟨h.1, h.2 9 newDataX [prodTwice]⟩
